import Mathlib

/-!
Verification of the BoloSignClone PDF signing engine.

The development shallowly embeds, in exact rational arithmetic:
* the coordinate conversion module `src/client/src/utils/coords.ts`
  (`screenToPercent`, `percentToScreen`, `percentToPdf`, `pdfToPercent`);
* the server helpers and the `POST /sign-pdf` field-processing loop of
  `src/server/server.js` (`fitImageInBounds`, the empty-value filter, the
  page-resolution expression `pages[field.page - 1] || pages[0]`, and the
  per-type `switch` drawing each field);
* the `GET /audit/:pdfId` response construction.

`server.js` registers three handlers for `POST /sign-pdf` (lines 307, 1226
and 1532).  Express dispatches a request to the first registered handler
that matches, so the handler at line 307 is the one that serves the route;
the handler at line 1226 is byte-for-byte the same logic, while the last
handler (line 1532) differs in its text/date/radio drawing parameters and
is unreachable.  `processField` below embeds the serving handler; the
shadowed updated text case is embedded separately as `textOpUpdated`.

JavaScript numbers are modelled as `ℚ` (the claims under scrutiny only
involve exact decimal inputs, where double arithmetic and rational
arithmetic agree up to the tolerances the spec states).
-/

namespace BoloSign

/-- Page geometry descriptor, from `PdfPageInfo` in coords.ts
(`pageNumber` is irrelevant to every conversion and omitted). -/
@[ext]
structure PdfPageInfo where
  widthPoints : ℚ
  heightPoints : ℚ
  widthPixels : ℚ
  heightPixels : ℚ
  scale : ℚ
  deriving DecidableEq

/-- Screen-space rectangle (pixels, top-left origin), from `ScreenRect`. -/
@[ext]
structure ScreenRect where
  x : ℚ
  y : ℚ
  width : ℚ
  height : ℚ
  deriving DecidableEq

/-- PDF-space rectangle (points, bottom-left origin), from `PdfRect`. -/
@[ext]
structure PdfRect where
  x : ℚ
  y : ℚ
  width : ℚ
  height : ℚ
  deriving DecidableEq

/-- Percent-space rectangle (0-100, y from bottom), from `PercentRect`. -/
@[ext]
structure PercentRect where
  xPct : ℚ
  yPct : ℚ
  widthPct : ℚ
  heightPct : ℚ
  deriving DecidableEq

/-- coords.ts lines 90-107: screen pixels to percentages. -/
def screenToPercent (screen : ScreenRect) (pageInfo : PdfPageInfo) : PercentRect :=
  let xPct := (screen.x / pageInfo.widthPixels) * 100
  let widthPct := (screen.width / pageInfo.widthPixels) * 100
  let yTopPct := (screen.y / pageInfo.heightPixels) * 100
  let heightPct := (screen.height / pageInfo.heightPixels) * 100
  let yPct := 100 - yTopPct - heightPct
  { xPct := xPct, yPct := yPct, widthPct := widthPct, heightPct := heightPct }

/-- coords.ts lines 112-124: percentages to screen pixels. -/
def percentToScreen (percent : PercentRect) (pageInfo : PdfPageInfo) : ScreenRect :=
  let x := (percent.xPct / 100) * pageInfo.widthPixels
  let width := (percent.widthPct / 100) * pageInfo.widthPixels
  let height := (percent.heightPct / 100) * pageInfo.heightPixels
  let yFromBottom := (percent.yPct / 100) * pageInfo.heightPixels
  let y := pageInfo.heightPixels - yFromBottom - height
  { x := x, y := y, width := width, height := height }

/-- coords.ts lines 129-138: percentages directly to PDF points. -/
def percentToPdf (percent : PercentRect) (pageInfo : PdfPageInfo) : PdfRect :=
  { x := (percent.xPct / 100) * pageInfo.widthPoints
    y := (percent.yPct / 100) * pageInfo.heightPoints
    width := (percent.widthPct / 100) * pageInfo.widthPoints
    height := (percent.heightPct / 100) * pageInfo.heightPoints }

/-- coords.ts lines 143-152: PDF points to percentages. -/
def pdfToPercent (pdf : PdfRect) (pageInfo : PdfPageInfo) : PercentRect :=
  { xPct := (pdf.x / pageInfo.widthPoints) * 100
    yPct := (pdf.y / pageInfo.heightPoints) * 100
    widthPct := (pdf.width / pageInfo.widthPoints) * 100
    heightPct := (pdf.height / pageInfo.heightPoints) * 100 }

/-- Result record of `fitImageInBounds`. -/
@[ext]
structure FittedImage where
  width : ℚ
  height : ℚ
  offsetX : ℚ
  offsetY : ℚ
  deriving DecidableEq

/-- server.js lines 119-138: aspect-preserving fit of an image into a box. -/
def fitImageInBounds (imageWidth imageHeight boxWidth boxHeight : ℚ) : FittedImage :=
  let imageAspect := imageWidth / imageHeight
  let boxAspect := boxWidth / boxHeight
  if imageAspect > boxAspect then
    { width := boxWidth
      height := boxWidth / imageAspect
      offsetX := 0
      offsetY := (boxHeight - boxWidth / imageAspect) / 2 }
  else
    { width := boxHeight * imageAspect
      height := boxHeight
      offsetX := (boxWidth - boxHeight * imageAspect) / 2
      offsetY := 0 }

/-- The 1e-6 relative tolerance of the spec's round-trip law. -/
def relTol : ℚ := 1 / 1000000

/-- Componentwise relative closeness of two percent rectangles within `relTol`. -/
def pctClose (a b : PercentRect) : Prop :=
  |a.xPct - b.xPct| ≤ relTol * |b.xPct| ∧
  |a.yPct - b.yPct| ≤ relTol * |b.yPct| ∧
  |a.widthPct - b.widthPct| ≤ relTol * |b.widthPct| ∧
  |a.heightPct - b.heightPct| ≤ relTol * |b.heightPct|

instance (a b : PercentRect) : Decidable (pctClose a b) := by
  unfold pctClose; infer_instance

/-- The screen round trip is exact in rational arithmetic. -/
theorem screenToPercent_percentToScreen (r : PercentRect) (g : PdfPageInfo)
    (hw : g.widthPixels ≠ 0) (hh : g.heightPixels ≠ 0) :
    screenToPercent (percentToScreen r g) g = r := by
  ext <;> simp only [screenToPercent, percentToScreen] <;> field_simp <;> ring

/-- The PDF round trip is exact in rational arithmetic. -/
theorem pdfToPercent_percentToPdf (r : PercentRect) (g : PdfPageInfo)
    (hw : g.widthPoints ≠ 0) (hh : g.heightPoints ≠ 0) :
    pdfToPercent (percentToPdf r g) g = r := by
  ext <;> simp only [pdfToPercent, percentToPdf] <;> field_simp <;> ring

/-- Exact equality implies `pctClose`. -/
theorem pctClose_of_eq {a b : PercentRect} (h : a = b) : pctClose a b := by
  subst h
  refine ⟨?_, ?_, ?_, ?_⟩ <;>
    simp [relTol, mul_nonneg, abs_nonneg]

/-- A JavaScript value submitted as a field's `value`: the signing payloads
are strings (text content or data URLs) or booleans (radio), and the key may
be absent (`undefined`). -/
inductive JsValue where
  | str : String → JsValue
  | bool : Bool → JsValue
  | absent : JsValue
  deriving DecidableEq

/-- JavaScript truthiness of a `JsValue`, as tested by `if (!field.value)`:
the empty string, `false` and `undefined` are falsy. -/
def JsValue.truthy : JsValue → Bool
  | .str s => !s.isEmpty
  | .bool b => b
  | .absent => false

/-- JavaScript `a || b` on a field value, as in `field.value || fallback`. -/
def jsOr (v : JsValue) (fallback : JsValue) : JsValue :=
  if v.truthy then v else fallback

/-- One field object of the `fields` array of a `POST /sign-pdf` request
body: `{type, value, x, y, width, height, page}` with PDF-point coordinates
and a 1-based page number. -/
structure SignField where
  type : String
  value : JsValue
  x : ℚ
  y : ℚ
  width : ℚ
  height : ℚ
  page : Int
  deriving DecidableEq

/-- What one `page.draw*` call paints. -/
inductive Shape where
  /-- `page.drawImage` with position and size. -/
  | image : ℚ → ℚ → ℚ → ℚ → Shape
  /-- `page.drawText` with content, x, y, font size and optional `maxWidth`. -/
  | text : JsValue → ℚ → ℚ → ℚ → Option ℚ → Shape
  /-- `page.drawCircle` with center, size and whether it is filled
  (`color:` present) or stroked only (`borderColor:` present). -/
  | circle : ℚ → ℚ → ℚ → Bool → Shape
  deriving DecidableEq

/-- A recorded drawing operation: which page object received which shape.
Pages are identified abstractly (the elements of the `pages` array). -/
structure DrawOp where
  page : Nat
  shape : Shape
  deriving DecidableEq

/-- JavaScript array indexing `l[i]` with a possibly negative index:
a negative or out-of-range index yields `undefined` (`none`). -/
def jsIndex {α : Type} (l : List α) (i : Int) : Option α :=
  if i < 0 then none else l.get? i.toNat

/-- server.js line 339: `const page = pages[field.page - 1] || pages[0];`.
`none` only when `pages` itself is empty (where the JS code would go on to
throw on the first draw call; every theorem below assumes a loaded PDF,
which has at least one page). -/
def resolvePage (pages : List Nat) (page : Int) : Option Nat :=
  match jsIndex pages (page - 1) with
  | some p => some p
  | none => jsIndex pages 0

/-- The effectful context of the signing loop: the outcomes of pdf-lib's
`embedPng`/`embedJpg` on a given base64 payload (`some` intrinsic
width×height on success, `none` when the decoder throws), and today's
locale-formatted date string. -/
structure ImageEnv where
  embedPng : String → Option (ℚ × ℚ)
  embedJpg : String → Option (ℚ × ℚ)
  today : String

/-- server.js lines 345-379, the `'signature'`/`'image'` case body:
extract the base64 payload after the first comma (`value.split(',')[1]`;
when there is no comma `Buffer.from(undefined)` throws and the outer
per-field `catch` swallows it), try PNG then JPEG decode (a double failure
hits `continue`), fit the image into the field box and draw it.  Returns
the draw operations and the `processedCount` increment. -/
def processImage (env : ImageEnv) (pageRef : Nat) (f : SignField) (v : String) :
    List DrawOp × Nat :=
  match (v.splitOn ",").get? 1 with
  | none => ([], 0)
  | some base64Data =>
    match env.embedPng base64Data with
    | some dims =>
      let fitted := fitImageInBounds dims.1 dims.2 f.width f.height
      ([⟨pageRef, .image (f.x + fitted.offsetX) (f.y + fitted.offsetY)
          fitted.width fitted.height⟩], 1)
    | none =>
      match env.embedJpg base64Data with
      | some dims =>
        let fitted := fitImageInBounds dims.1 dims.2 f.width f.height
        ([⟨pageRef, .image (f.x + fitted.offsetX) (f.y + fitted.offsetY)
            fitted.width fitted.height⟩], 1)
      | none => ([], 0)

/-- server.js lines 333-421: one iteration of the signing loop of the
handler registered first (line 307), the one Express serves.  The empty
filter (`if (!field.value) continue`), page resolution, and the per-type
`switch`; unknown types fall through the `switch` silently. -/
def processField (env : ImageEnv) (pages : List Nat) (f : SignField) :
    List DrawOp × Nat :=
  if !f.value.truthy then ([], 0)
  else
    match resolvePage pages f.page with
    | none => ([], 0)
    | some pageRef =>
      match f.type with
      | "signature" =>
        match f.value with
        | .str v => processImage env pageRef f v
        | _ => ([], 0)
      | "image" =>
        match f.value with
        | .str v => processImage env pageRef f v
        | _ => ([], 0)
      | "text" =>
        ([⟨pageRef, .text (jsOr f.value (.str "Sample Text")) f.x
            (f.y + f.height / 2 - 5) 12 none⟩], 1)
      | "date" =>
        ([⟨pageRef, .text (jsOr f.value (.str env.today)) f.x
            (f.y + f.height / 2 - 5) 12 none⟩], 1)
      | "radio" =>
        if f.value = .bool true then
          ([⟨pageRef, .circle (f.x + f.width / 2) (f.y + f.height / 2)
              (f.width / 2 - 2) false⟩,
            ⟨pageRef, .circle (f.x + f.width / 2) (f.y + f.height / 2)
              (f.width / 3) true⟩], 1)
        else ([], 0)
      | _ => ([], 0)

/-- server.js lines 332-422: the whole signing loop, accumulating draw
operations in input order and the final `processedCount`. -/
def signPdf (env : ImageEnv) (pages : List Nat) : List SignField → List DrawOp × Nat
  | [] => ([], 0)
  | f :: rest =>
    let step := processField env pages f
    let tail := signPdf env pages rest
    (step.1 ++ tail.1, step.2 + tail.2)

/-- server.js lines 1623-1637: the `'text'` case of the LAST registered
`/sign-pdf` handler, which Express never reaches (the first registration
shadows it): scaled font size `min(12, height * 0.6)`, baseline
`y + height/2 - fontSize/3`, and a `maxWidth: width` constraint. -/
def textOpUpdated (pageRef : Nat) (f : SignField) : DrawOp :=
  let fontSize := min 12 (f.height * (6 / 10))
  let textY := f.y + f.height / 2 - fontSize / 3
  ⟨pageRef, .text (jsOr f.value (.str "")) f.x textY fontSize (some f.width)⟩

/-- The stored audit document consulted by `GET /audit/:pdfId`
(timestamps kept abstract as strings; `fields` is the trimmed snapshot
stored at signing time, of which the lookup only uses the length). -/
structure AuditDoc where
  pdfId : String
  originalHash : String
  signedHash : String
  signedAt : String
  fields : List SignField
  createdAt : String
  deriving DecidableEq

/-- The JSON body answered by `GET /audit/:pdfId`. -/
structure AuditResponse where
  pdfId : String
  originalHash : String
  signedHash : String
  signedAt : String
  fieldsCount : Nat
  integrity : String
  createdAt : String
  deriving DecidableEq

/-- server.js lines 503-511: the audit lookup response for a found
document: both hashes, the timestamp, the stored field count, and
`integrity: doc.originalHash !== doc.signedHash ? 'Modified' : 'Intact'`. -/
def auditLookup (doc : AuditDoc) : AuditResponse :=
  { pdfId := doc.pdfId
    originalHash := doc.originalHash
    signedHash := doc.signedHash
    signedAt := doc.signedAt
    fieldsCount := doc.fields.length
    integrity := if doc.originalHash ≠ doc.signedHash then "Modified" else "Intact"
    createdAt := doc.createdAt }

/-- A nonempty pages array always resolves to some page. -/
theorem resolvePage_exists (pages : List Nat) (hpages : pages ≠ []) (page : Int) :
    ∃ p, resolvePage pages page = some p := by
  cases pages with
  | nil => exact absurd rfl hpages
  | cons a l =>
    unfold resolvePage
    cases h : jsIndex (a :: l) (page - 1) with
    | some p => exact ⟨p, rfl⟩
    | none => exact ⟨a, by simp [jsIndex]⟩

/-- Every draw operation emitted by `processImage` targets the page it was
given. -/
theorem processImage_op_page (env : ImageEnv) (pageRef : Nat) (f : SignField)
    (v : String) : ∀ op ∈ (processImage env pageRef f v).1, op.page = pageRef := by
  intro op hop
  unfold processImage at hop
  split at hop
  · exact absurd hop (by simp)
  · split at hop
    · dsimp only at hop
      rw [List.mem_singleton] at hop
      subst hop
      rfl
    · split at hop
      · dsimp only at hop
        rw [List.mem_singleton] at hop
        subst hop
        rfl
      · exact absurd hop (by simp)

/-- Every draw operation emitted by `processField` targets the page that
`resolvePage` resolved for the field. -/
theorem processField_op_page (env : ImageEnv) (pages : List Nat) (f : SignField) :
    ∀ op ∈ (processField env pages f).1, some op.page = resolvePage pages f.page := by
  intro op hop
  unfold processField at hop
  split at hop
  · exact absurd hop (by simp)
  · split at hop
    · exact absurd hop (by simp)
    next pageRef heq =>
      rw [heq, Option.some_inj]
      split at hop
      · split at hop
        · exact processImage_op_page env pageRef f _ op hop
        · exact absurd hop (by simp)
      · split at hop
        · exact processImage_op_page env pageRef f _ op hop
        · exact absurd hop (by simp)
      · dsimp only at hop
        rw [List.mem_singleton] at hop
        subst hop
        rfl
      · dsimp only at hop
        rw [List.mem_singleton] at hop
        subst hop
        rfl
      · split at hop
        · simp only [List.mem_cons, List.mem_singleton, List.not_mem_nil,
            or_false] at hop
          rcases hop with hop | hop <;> (subst hop; rfl)
        · exact absurd hop (by simp)
      · exact absurd hop (by simp)

/-- `processImage` on a payload that neither decoder accepts draws nothing
and does not increment the processed count. -/
theorem processImage_decode_failure (env : ImageEnv) (pageRef : Nat)
    (f : SignField) (v : String)
    (hdec : ∀ payload, (v.splitOn ",").get? 1 = some payload →
      env.embedPng payload = none ∧ env.embedJpg payload = none) :
    processImage env pageRef f v = ([], 0) := by
  unfold processImage
  rcases hsplit : (v.splitOn ",").get? 1 with _ | payload
  · rfl
  · dsimp only
    rw [(hdec payload hsplit).1, (hdec payload hsplit).2]

/-- The signing loop distributes over list append. -/
theorem signPdf_append (env : ImageEnv) (pages : List Nat)
    (l1 l2 : List SignField) :
    signPdf env pages (l1 ++ l2) =
      ((signPdf env pages l1).1 ++ (signPdf env pages l2).1,
        (signPdf env pages l1).2 + (signPdf env pages l2).2) := by
  induction l1 with
  | nil => simp [signPdf]
  | cons f rest ih => simp [signPdf, ih, Nat.add_assoc]

/-- A field that draws nothing and is not counted can be dropped from the
input list without changing the signing output. -/
theorem signPdf_skip (env : ImageEnv) (pages : List Nat) (f : SignField)
    (l1 l2 : List SignField) (hf : processField env pages f = ([], 0)) :
    signPdf env pages (l1 ++ f :: l2) = signPdf env pages (l1 ++ l2) := by
  have hcons : signPdf env pages (f :: l2) = signPdf env pages l2 := by
    simp [signPdf, hf]
  rw [signPdf_append, signPdf_append, hcons]

/-- Claim C1: for every PageGeometry with all four dimensions positive and
every rectangle in Percent space, the Screen round trip and the PDF round
trip return the rectangle within 1e-6 relative tolerance in each component
(in exact rational arithmetic both round trips are exact). -/
theorem coords_roundtrip_within_tolerance (g : PdfPageInfo) (r : PercentRect)
    (hwpt : 0 < g.widthPoints) (hhpt : 0 < g.heightPoints)
    (hwpx : 0 < g.widthPixels) (hhpx : 0 < g.heightPixels) :
    pctClose (screenToPercent (percentToScreen r g) g) r ∧
    pctClose (pdfToPercent (percentToPdf r g) g) r :=
  ⟨pctClose_of_eq (screenToPercent_percentToScreen r g hwpx.ne' hhpx.ne'),
   pctClose_of_eq (pdfToPercent_percentToPdf r g hwpt.ne' hhpt.ne')⟩

/-- Witness for C1 at the spec's example geometry and rectangle. -/
theorem coords_roundtrip_within_tolerance_witness :
    pctClose (screenToPercent (percentToScreen ⟨10, 85, 20, 5⟩ ⟨612, 792, 800, 1036, 1⟩)
        ⟨612, 792, 800, 1036, 1⟩) ⟨10, 85, 20, 5⟩ ∧
    pctClose (pdfToPercent (percentToPdf ⟨10, 85, 20, 5⟩ ⟨612, 792, 800, 1036, 1⟩)
        ⟨612, 792, 800, 1036, 1⟩) ⟨10, 85, 20, 5⟩ :=
  coords_roundtrip_within_tolerance ⟨612, 792, 800, 1036, 1⟩ ⟨10, 85, 20, 5⟩
    (show (0 : ℚ) < 612 by norm_num) (show (0 : ℚ) < 792 by norm_num)
    (show (0 : ℚ) < 800 by norm_num) (show (0 : ℚ) < 1036 by norm_num)

/-- Claim C3: for positive image and box dimensions, `fitImageInBounds`
fits within the box, touches the box on at least one axis, preserves the
aspect ratio (stated multiplicatively), and centers on both axes (on the
constraining axis the centering offset is 0). -/
theorem fitImageInBounds_law (iw ih bw bh : ℚ)
    (hiw : 0 < iw) (hih : 0 < ih) (hbw : 0 < bw) (hbh : 0 < bh) :
    (fitImageInBounds iw ih bw bh).width ≤ bw ∧
    (fitImageInBounds iw ih bw bh).height ≤ bh ∧
    ((fitImageInBounds iw ih bw bh).width = bw ∨
      (fitImageInBounds iw ih bw bh).height = bh) ∧
    (fitImageInBounds iw ih bw bh).width * ih =
      (fitImageInBounds iw ih bw bh).height * iw ∧
    (fitImageInBounds iw ih bw bh).offsetX =
      (bw - (fitImageInBounds iw ih bw bh).width) / 2 ∧
    (fitImageInBounds iw ih bw bh).offsetY =
      (bh - (fitImageInBounds iw ih bw bh).height) / 2 := by
  unfold fitImageInBounds
  dsimp only
  split_ifs with h
  · rw [gt_iff_lt, div_lt_div_iff₀ hbh hih] at h
    have hkey : bw / (iw / ih) ≤ bh := by
      rw [div_le_iff₀ (by positivity : (0 : ℚ) < iw / ih), ← mul_div_assoc,
        le_div_iff₀ hih]
      nlinarith
    refine ⟨le_refl _, hkey, Or.inl rfl, ?_, by norm_num, rfl⟩
    field_simp
  · push_neg at h
    rw [div_le_div_iff₀ hih hbh] at h
    have hkey : bh * (iw / ih) ≤ bw := by
      rw [← mul_div_assoc, div_le_iff₀ hih]
      nlinarith
    refine ⟨hkey, le_refl _, Or.inr rfl, ?_, rfl, by norm_num⟩
    field_simp

/-- Witness for C3 at the spec's example scenario 3 (400×200 image into a
150×60 box). -/
theorem fitImageInBounds_law_witness :
    (fitImageInBounds 400 200 150 60).width ≤ 150 ∧
    (fitImageInBounds 400 200 150 60).height ≤ 60 ∧
    ((fitImageInBounds 400 200 150 60).width = 150 ∨
      (fitImageInBounds 400 200 150 60).height = 60) ∧
    (fitImageInBounds 400 200 150 60).width * 200 =
      (fitImageInBounds 400 200 150 60).height * 400 ∧
    (fitImageInBounds 400 200 150 60).offsetX =
      (150 - (fitImageInBounds 400 200 150 60).width) / 2 ∧
    (fitImageInBounds 400 200 150 60).offsetY =
      (60 - (fitImageInBounds 400 200 150 60).height) / 2 :=
  fitImageInBounds_law 400 200 150 60 (by norm_num) (by norm_num)
    (by norm_num) (by norm_num)

/-- Claim C7: `percentToPdf` at the spec's example geometry and Percent
rectangle yields exactly (61.2, 673.2, 122.4, 39.6). -/
theorem percentToPdf_example_scenario :
    percentToPdf ⟨10, 85, 20, 5⟩ ⟨612, 792, 800, 1036.07, 1.307⟩ =
      ⟨61.2, 673.2, 122.4, 39.6⟩ := by
  ext <;> norm_num [percentToPdf]

/-- Claim C9: the audit lookup labels the record "Modified" exactly when
the two stored hashes differ and "Intact" exactly when they agree, and
returns both hashes, the signing timestamp and the stored field count
unaltered. -/
theorem audit_integrity_label (doc : AuditDoc) :
    ((auditLookup doc).integrity = "Modified" ↔ doc.originalHash ≠ doc.signedHash) ∧
    ((auditLookup doc).integrity = "Intact" ↔ doc.originalHash = doc.signedHash) ∧
    (auditLookup doc).originalHash = doc.originalHash ∧
    (auditLookup doc).signedHash = doc.signedHash ∧
    (auditLookup doc).signedAt = doc.signedAt ∧
    (auditLookup doc).fieldsCount = doc.fields.length := by
  unfold auditLookup
  by_cases h : doc.originalHash = doc.signedHash <;> simp [h]

/-- Claim C2 (code bug): the spec's text rendering rule — font size
`min(12, 0.6 × height)`, baseline `y + height/2 − fontSize/3`, constrained
by `maxWidth: width` — is implemented only in the last registered
`/sign-pdf` handler (`textOpUpdated`).  Express serves the first
registration, whose text case draws at fixed size 12 and baseline
`y + height/2 − 5` with no width constraint; on a 100×10 field with value
"Hi" the served handler draws at size 12 where the claim demands size
`min(12, 0.6·10) = 6`. -/
theorem text_render_shadowed_bug :
    processField ⟨fun _ => none, fun _ => none, ""⟩ [0]
        ⟨"text", JsValue.str "Hi", 0, 0, 100, 10, 1⟩ =
      ([⟨0, Shape.text (JsValue.str "Hi") 0 0 12 none⟩], 1) ∧
    textOpUpdated 0 ⟨"text", JsValue.str "Hi", 0, 0, 100, 10, 1⟩ =
      ⟨0, Shape.text (JsValue.str "Hi") 0 3 6 (some 100)⟩ ∧
    (12 : ℚ) ≠ min 12 ((10 : ℚ) * (6 / 10)) := by
  refine ⟨?_, ?_, by norm_num [min_def]⟩
  · have h1 : processField ⟨fun _ => none, fun _ => none, ""⟩ [0]
        ⟨"text", JsValue.str "Hi", 0, 0, 100, 10, 1⟩ =
        ([⟨0, Shape.text (JsValue.str "Hi") 0 ((0 : ℚ) + 10 / 2 - 5) 12 none⟩],
          1) := rfl
    rw [h1]
    norm_num
  · have h2 : textOpUpdated 0 ⟨"text", JsValue.str "Hi", 0, 0, 100, 10, 1⟩ =
        ⟨0, Shape.text (JsValue.str "Hi") 0
          ((0 : ℚ) + 10 / 2 - min 12 ((10 : ℚ) * (6 / 10)) / 3)
          (min 12 ((10 : ℚ) * (6 / 10))) (some 100)⟩ := rfl
    rw [h2]
    norm_num [min_def]

/-- Claim C4: a radio field draws its mark (the two concentric circles) and
is counted exactly when its value is the boolean `true`; every other value,
including the string "true", draws nothing and is not counted. -/
theorem radio_mark_iff_bool_true (env : ImageEnv) (pages : List Nat)
    (f : SignField) (htype : f.type = "radio") (hpages : pages ≠ []) :
    (f.value = JsValue.bool true →
      ∃ p, resolvePage pages f.page = some p ∧
        processField env pages f =
          ([⟨p, Shape.circle (f.x + f.width / 2) (f.y + f.height / 2)
              (f.width / 2 - 2) false⟩,
            ⟨p, Shape.circle (f.x + f.width / 2) (f.y + f.height / 2)
              (f.width / 3) true⟩], 1)) ∧
    (f.value ≠ JsValue.bool true → processField env pages f = ([], 0)) := by
  constructor
  · intro hval
    obtain ⟨p, hp⟩ := resolvePage_exists pages hpages f.page
    refine ⟨p, hp, ?_⟩
    unfold processField
    rw [hval, htype, hp]
    rfl
  · intro hval
    unfold processField
    rw [htype]
    rcases hres : resolvePage pages f.page with _ | p
    · split <;> rfl
    · rcases hv : f.value with s | b | hb
      · split <;> rfl
      · rw [hv] at hval
        have hb : b = false := by
          cases b
          · rfl
          · exact absurd rfl hval
        subst hb
        rfl
      · rfl

/-- Witness for C4 at a concrete radio field with boolean `true` value and
one with the string value "true". -/
theorem radio_mark_iff_bool_true_witness :
    ((⟨"radio", JsValue.bool true, 0, 0, 10, 10, 1⟩ : SignField).value =
        JsValue.bool true →
      ∃ p, resolvePage [0] (⟨"radio", JsValue.bool true, 0, 0, 10, 10, 1⟩ :
          SignField).page = some p ∧
        processField ⟨fun _ => none, fun _ => none, ""⟩ [0]
            ⟨"radio", JsValue.bool true, 0, 0, 10, 10, 1⟩ =
          ([⟨p, Shape.circle (0 + 10 / 2) (0 + 10 / 2) (10 / 2 - 2) false⟩,
            ⟨p, Shape.circle (0 + 10 / 2) (0 + 10 / 2) (10 / 3) true⟩], 1)) ∧
    ((⟨"radio", JsValue.bool true, 0, 0, 10, 10, 1⟩ : SignField).value ≠
        JsValue.bool true →
      processField ⟨fun _ => none, fun _ => none, ""⟩ [0]
          ⟨"radio", JsValue.bool true, 0, 0, 10, 10, 1⟩ = ([], 0)) :=
  radio_mark_iff_bool_true ⟨fun _ => none, fun _ => none, ""⟩ [0]
    ⟨"radio", JsValue.bool true, 0, 0, 10, 10, 1⟩ rfl (by simp)

/-- Claim C5: a field whose submitted value is the empty string, boolean
`false` or absent is skipped for every field type — nothing is drawn, no
increment — and signing a document whose only field is an empty text field
yields a processed count of 0. -/
theorem empty_value_never_processed (env : ImageEnv) (pages : List Nat)
    (f : SignField)
    (h : f.value = JsValue.str "" ∨ f.value = JsValue.bool false ∨
      f.value = JsValue.absent) :
    processField env pages f = ([], 0) ∧
    ∀ x y w hgt pg,
      (signPdf env pages [⟨"text", JsValue.str "", x, y, w, hgt, pg⟩]).2 = 0 := by
  constructor
  · rcases h with h | h | h <;> (unfold processField; rw [h]; rfl)
  · intro x y w hgt pg
    rfl

/-- Witness for C5 at a concrete empty-valued text field. -/
theorem empty_value_never_processed_witness :
    processField ⟨fun _ => none, fun _ => none, ""⟩ [0]
        ⟨"text", JsValue.str "", 1, 2, 3, 4, 1⟩ = ([], 0) ∧
    ∀ x y w hgt pg,
      (signPdf ⟨fun _ => none, fun _ => none, ""⟩ [0]
          [⟨"text", JsValue.str "", x, y, w, hgt, pg⟩]).2 = 0 :=
  empty_value_never_processed ⟨fun _ => none, fun _ => none, ""⟩ [0]
    ⟨"text", JsValue.str "", 1, 2, 3, 4, 1⟩ (Or.inl rfl)

/-- Claim C6: with at least one page loaded, an in-range 1-based page index
resolves to `pages[page − 1]`, an out-of-range index falls back to the
first page rather than failing, and every draw operation a field emits
lands on the page so resolved. -/
theorem page_out_of_range_falls_back (env : ImageEnv) (pages : List Nat)
    (f : SignField) (hpages : pages ≠ []) :
    ((1 ≤ f.page ∧ f.page ≤ (pages.length : Int)) →
      ∃ hlt : (f.page - 1).toNat < pages.length,
        resolvePage pages f.page = some (pages.get ⟨(f.page - 1).toNat, hlt⟩)) ∧
    ((f.page < 1 ∨ (pages.length : Int) < f.page) →
      resolvePage pages f.page = some pages.headI) ∧
    ∀ op ∈ (processField env pages f).1, some op.page = resolvePage pages f.page := by
  refine ⟨?_, ?_, processField_op_page env pages f⟩
  · rintro ⟨h1, h2⟩
    have hlt : (f.page - 1).toNat < pages.length := by omega
    refine ⟨hlt, ?_⟩
    unfold resolvePage jsIndex
    rw [if_neg (by omega : ¬ f.page - 1 < 0), List.get?_eq_get hlt]
  · intro hout
    have hnone : jsIndex pages (f.page - 1) = none := by
      unfold jsIndex
      rcases hout with h | h
      · rw [if_pos (by omega)]
      · rw [if_neg (by omega)]
        exact List.get?_eq_none.mpr (by omega)
    unfold resolvePage
    rw [hnone]
    cases pages with
    | nil => exact absurd rfl hpages
    | cons a l => rfl

/-- Witness for C6 at a two-page document and an out-of-range page index 5. -/
theorem page_out_of_range_falls_back_witness :
    ((1 ≤ (⟨"radio", JsValue.bool true, 0, 0, 10, 10, 5⟩ : SignField).page ∧
        (⟨"radio", JsValue.bool true, 0, 0, 10, 10, 5⟩ : SignField).page ≤
          (([7, 8] : List Nat).length : Int)) →
      ∃ hlt : ((⟨"radio", JsValue.bool true, 0, 0, 10, 10, 5⟩ : SignField).page -
          1).toNat < ([7, 8] : List Nat).length,
        resolvePage [7, 8]
            (⟨"radio", JsValue.bool true, 0, 0, 10, 10, 5⟩ : SignField).page =
          some (([7, 8] : List Nat).get
            ⟨((⟨"radio", JsValue.bool true, 0, 0, 10, 10, 5⟩ : SignField).page -
              1).toNat, hlt⟩)) ∧
    (((⟨"radio", JsValue.bool true, 0, 0, 10, 10, 5⟩ : SignField).page < 1 ∨
        (([7, 8] : List Nat).length : Int) <
          (⟨"radio", JsValue.bool true, 0, 0, 10, 10, 5⟩ : SignField).page) →
      resolvePage [7, 8]
          (⟨"radio", JsValue.bool true, 0, 0, 10, 10, 5⟩ : SignField).page =
        some ([7, 8] : List Nat).headI) ∧
    ∀ op ∈ (processField ⟨fun _ => none, fun _ => none, ""⟩ [7, 8]
        ⟨"radio", JsValue.bool true, 0, 0, 10, 10, 5⟩).1,
      some op.page = resolvePage [7, 8]
        (⟨"radio", JsValue.bool true, 0, 0, 10, 10, 5⟩ : SignField).page :=
  page_out_of_range_falls_back ⟨fun _ => none, fun _ => none, ""⟩ [7, 8]
    ⟨"radio", JsValue.bool true, 0, 0, 10, 10, 5⟩ (by simp)

/-- Claim C8: a signature or image field whose base64 payload neither the
PNG decoder (tried first) nor the JPEG decoder (tried second) accepts is
skipped without incrementing the processed count, and dropping it from the
input leaves the whole signing output unchanged — the failure never aborts
the operation. -/
theorem image_decode_failure_contained (env : ImageEnv) (pages : List Nat)
    (f : SignField) (l1 l2 : List SignField) (s : String)
    (htype : f.type = "signature" ∨ f.type = "image")
    (hv : f.value = JsValue.str s)
    (hdec : ∀ payload, (s.splitOn ",").get? 1 = some payload →
      env.embedPng payload = none ∧ env.embedJpg payload = none) :
    processField env pages f = ([], 0) ∧
    signPdf env pages (l1 ++ f :: l2) = signPdf env pages (l1 ++ l2) := by
  have hpf : processField env pages f = ([], 0) := by
    unfold processField
    split
    · rfl
    · split
      · rfl
      next pageRef heq =>
        rcases htype with ht | ht <;> rw [ht, hv] <;>
          exact processImage_decode_failure env pageRef f s hdec
  exact ⟨hpf, signPdf_skip env pages f l1 l2 hpf⟩

/-- Witness for C8: a signature field whose payload both decoders reject,
followed by a text field that still gets processed. -/
theorem image_decode_failure_contained_witness :
    processField ⟨fun _ => none, fun _ => none, ""⟩ [0]
        ⟨"signature", JsValue.str "data:image/png;base64,AAAA", 0, 0, 50, 20, 1⟩ =
      ([], 0) ∧
    signPdf ⟨fun _ => none, fun _ => none, ""⟩ [0]
        ([] ++ ⟨"signature", JsValue.str "data:image/png;base64,AAAA", 0, 0, 50,
          20, 1⟩ :: [⟨"text", JsValue.str "hello", 0, 0, 50, 20, 1⟩]) =
      signPdf ⟨fun _ => none, fun _ => none, ""⟩ [0]
        ([] ++ [⟨"text", JsValue.str "hello", 0, 0, 50, 20, 1⟩]) :=
  image_decode_failure_contained ⟨fun _ => none, fun _ => none, ""⟩ [0]
    ⟨"signature", JsValue.str "data:image/png;base64,AAAA", 0, 0, 50, 20, 1⟩
    [] [⟨"text", JsValue.str "hello", 0, 0, 50, 20, 1⟩]
    "data:image/png;base64,AAAA" (Or.inl rfl) rfl
    (fun _ _ => ⟨rfl, rfl⟩)

/-- Claim C10: a field with a truthy value whose type is none of signature,
text, image, date or radio falls through the type dispatch silently —
nothing is drawn, the count is not incremented, and dropping the field
leaves the signing output unchanged. -/
theorem unknown_field_type_silent_noop (env : ImageEnv) (pages : List Nat)
    (f : SignField) (l1 l2 : List SignField)
    (htype : f.type ∉ (["signature", "text", "image", "date", "radio"] :
      List String)) :
    processField env pages f = ([], 0) ∧
    signPdf env pages (l1 ++ f :: l2) = signPdf env pages (l1 ++ l2) := by
  simp only [List.mem_cons, List.mem_singleton, not_or] at htype
  obtain ⟨h1, h2, h3, h4, h5, -⟩ := htype
  have hpf : processField env pages f = ([], 0) := by
    unfold processField
    split
    · rfl
    · split
      · rfl
      · split
        next heq => exact absurd heq h1
        next heq => exact absurd heq h3
        next heq => exact absurd heq h2
        next heq => exact absurd heq h4
        next heq => exact absurd heq h5
        next => rfl
  exact ⟨hpf, signPdf_skip env pages f l1 l2 hpf⟩

/-- Witness for C10 at a concrete field of unknown type "checkbox" with a
truthy value. -/
theorem unknown_field_type_silent_noop_witness :
    processField ⟨fun _ => none, fun _ => none, ""⟩ [0]
        ⟨"checkbox", JsValue.str "yes", 0, 0, 10, 10, 1⟩ = ([], 0) ∧
    signPdf ⟨fun _ => none, fun _ => none, ""⟩ [0]
        ([] ++ ⟨"checkbox", JsValue.str "yes", 0, 0, 10, 10, 1⟩ ::
          [⟨"text", JsValue.str "hello", 0, 0, 50, 20, 1⟩]) =
      signPdf ⟨fun _ => none, fun _ => none, ""⟩ [0]
        ([] ++ [⟨"text", JsValue.str "hello", 0, 0, 50, 20, 1⟩]) :=
  unknown_field_type_silent_noop ⟨fun _ => none, fun _ => none, ""⟩ [0]
    ⟨"checkbox", JsValue.str "yes", 0, 0, 10, 10, 1⟩
    [] [⟨"text", JsValue.str "hello", 0, 0, 50, 20, 1⟩] (by decide)

end BoloSign
